import Mathlib

/-!
Shallow embedding of the Stella libretro core and its bankswitch scheme
resolver, with theorems checking the specification's claims against it.

Sources embedded:
* `Bankswitch.cxx` — scheme catalog (`BSList`), extension table
  (`ourExtensions`), name table (`ourNameToTypes`) and the lookup
  functions `typeToName`, `nameToType`, `typeFromExtension`,
  `isValidRomName`.
* `StellaLIBRETRO.cxx` — the session driver `runFrame` (RAM-mirror write,
  input sampling, scanline loop, audio drain, mirror refresh) and the
  snapshot operations `saveState`, `loadState`, `getStateSize`.

The console engine (TIA, controllers, RIOT, StateManager, Serializer) is
external to the excerpt; it is embedded as an abstract operations record
`EngineOps` over an opaque engine-state type, and facts about it that the
specification states are taken as explicit hypotheses.
-/

namespace Bankswitch

/-- Scheme ids: index into the catalog `BSList`, mirroring the C++ enum
`Bankswitch::Type` whose values 0..49 index the array (the conditionally
compiled CUSTOM entry is excluded, matching a build without CUSTOM_ARM). -/
abbrev SchemeId := Fin 50

def _AUTO   : SchemeId := ⟨0, by decide⟩
def _0840   : SchemeId := ⟨1, by decide⟩
def _2IN1   : SchemeId := ⟨2, by decide⟩
def _4IN1   : SchemeId := ⟨3, by decide⟩
def _8IN1   : SchemeId := ⟨4, by decide⟩
def _16IN1  : SchemeId := ⟨5, by decide⟩
def _32IN1  : SchemeId := ⟨6, by decide⟩
def _64IN1  : SchemeId := ⟨7, by decide⟩
def _128IN1 : SchemeId := ⟨8, by decide⟩
def _2K     : SchemeId := ⟨9, by decide⟩
def _3E     : SchemeId := ⟨10, by decide⟩
def _3EP    : SchemeId := ⟨11, by decide⟩
def _3F     : SchemeId := ⟨12, by decide⟩
def _4A50   : SchemeId := ⟨13, by decide⟩
def _4K     : SchemeId := ⟨14, by decide⟩
def _4KSC   : SchemeId := ⟨15, by decide⟩
def _AR     : SchemeId := ⟨16, by decide⟩
def _BF     : SchemeId := ⟨17, by decide⟩
def _BFSC   : SchemeId := ⟨18, by decide⟩
def _BUS    : SchemeId := ⟨19, by decide⟩
def _CDF    : SchemeId := ⟨20, by decide⟩
def _CM     : SchemeId := ⟨21, by decide⟩
def _CTY    : SchemeId := ⟨22, by decide⟩
def _CV     : SchemeId := ⟨23, by decide⟩
def _CVP    : SchemeId := ⟨24, by decide⟩
def _DASH   : SchemeId := ⟨25, by decide⟩
def _DF     : SchemeId := ⟨26, by decide⟩
def _DFSC   : SchemeId := ⟨27, by decide⟩
def _DPC    : SchemeId := ⟨28, by decide⟩
def _DPCP   : SchemeId := ⟨29, by decide⟩
def _E0     : SchemeId := ⟨30, by decide⟩
def _E7     : SchemeId := ⟨31, by decide⟩
def _E78K   : SchemeId := ⟨32, by decide⟩
def _EF     : SchemeId := ⟨33, by decide⟩
def _EFSC   : SchemeId := ⟨34, by decide⟩
def _F0     : SchemeId := ⟨35, by decide⟩
def _F4     : SchemeId := ⟨36, by decide⟩
def _F4SC   : SchemeId := ⟨37, by decide⟩
def _F6     : SchemeId := ⟨38, by decide⟩
def _F6SC   : SchemeId := ⟨39, by decide⟩
def _F8     : SchemeId := ⟨40, by decide⟩
def _F8SC   : SchemeId := ⟨41, by decide⟩
def _FA     : SchemeId := ⟨42, by decide⟩
def _FA2    : SchemeId := ⟨43, by decide⟩
def _FE     : SchemeId := ⟨44, by decide⟩
def _MDM    : SchemeId := ⟨45, by decide⟩
def _SB     : SchemeId := ⟨46, by decide⟩
def _UA     : SchemeId := ⟨47, by decide⟩
def _WD     : SchemeId := ⟨48, by decide⟩
def _X07    : SchemeId := ⟨49, by decide⟩

/-- The scheme catalog `Bankswitch::BSList`: canonical token and display
name for each scheme id, in enum order (the id is the list index). -/
def BSList : List (String × String) := [
  ("AUTO"    , "Auto-detect"                 ),
  ("0840"    , "0840 (8K ECONObank)"         ),
  ("2IN1"    , "2IN1 Multicart (4-32K)"      ),
  ("4IN1"    , "4IN1 Multicart (8-32K)"      ),
  ("8IN1"    , "8IN1 Multicart (16-64K)"     ),
  ("16IN1"   , "16IN1 Multicart (32-128K)"   ),
  ("32IN1"   , "32IN1 Multicart (64/128K)"   ),
  ("64IN1"   , "64IN1 Multicart (128/256K)"  ),
  ("128IN1"  , "128IN1 Multicart (256/512K)" ),
  ("2K"      , "2K (64-2048 bytes Atari)"    ),
  ("3E"      , "3E (32K Tigervision)"        ),
  ("3E+"     , "3E+ (TJ modified DASH)"      ),
  ("3F"      , "3F (512K Tigervision)"       ),
  ("4A50"    , "4A50 (64K 4A50 + ram)"       ),
  ("4K"      , "4K (4K Atari)"               ),
  ("4KSC"    , "4KSC (CPUWIZ 4K + ram)"      ),
  ("AR"      , "AR (Supercharger)"           ),
  ("BF"      , "BF (CPUWIZ 256K)"            ),
  ("BFSC"    , "BFSC (CPUWIZ 256K + ram)"    ),
  ("BUS"     , "BUS (Experimental)"          ),
  ("CDF"     , "CDF (Chris, Darrell, Fred)"  ),
  ("CM"      , "CM (SpectraVideo CompuMate)" ),
  ("CTY"     , "CTY (CDW - Chetiry)"         ),
  ("CV"      , "CV (Commavid extra ram)"     ),
  ("CV+"     , "CV+ (Extended Commavid)"     ),
  ("DASH"    , "DASH (Experimental)"         ),
  ("DF"      , "DF (CPUWIZ 128K)"            ),
  ("DFSC"    , "DFSC (CPUWIZ 128K + ram)"    ),
  ("DPC"     , "DPC (Pitfall II)"            ),
  ("DPC+"    , "DPC+ (Enhanced DPC)"         ),
  ("E0"      , "E0 (8K Parker Bros)"         ),
  ("E7"      , "E7 (16K M-network)"          ),
  ("E78K"    , "E78K (8K M-network)"         ),
  ("EF"      , "EF (64K H. Runner)"          ),
  ("EFSC"    , "EFSC (64K H. Runner + ram)"  ),
  ("F0"      , "F0 (Dynacom Megaboy)"        ),
  ("F4"      , "F4 (32K Atari)"              ),
  ("F4SC"    , "F4SC (32K Atari + ram)"      ),
  ("F6"      , "F6 (16K Atari)"              ),
  ("F6SC"    , "F6SC (16K Atari + ram)"      ),
  ("F8"      , "F8 (8K Atari)"               ),
  ("F8SC"    , "F8SC (8K Atari + ram)"       ),
  ("FA"      , "FA (CBS RAM Plus)"           ),
  ("FA2"     , "FA2 (CBS RAM Plus 24/28K)"   ),
  ("FE"      , "FE (8K Decathlon)"           ),
  ("MDM"     , "MDM (Menu Driven Megacart)"  ),
  ("SB"      , "SB (128-256K SUPERbank)"     ),
  ("UA"      , "UA (8K UA Ltd.)"             ),
  ("WD"      , "WD (Experimental)"           ),
  ("X07"     , "X07 (64K AtariAge)"          )]

/-- `Bankswitch::typeToName`: `BSList[int(type)].name`. -/
def typeToName (t : SchemeId) : String :=
  (BSList.getD t.val ("", "")).1

/-- The extension table `Bankswitch::ourExtensions` as the ordered
key-value list from which the map is built (the conditionally compiled
"zip" entry is excluded, matching a build without ZIP_SUPPORT). -/
def ourExtensions : List (String × SchemeId) := [
  ("a26"   , _AUTO   ),
  ("bin"   , _AUTO   ),
  ("rom"   , _AUTO   ),
  ("cu"    , _AUTO   ),
  ("084"   , _0840   ),
  ("0840"  , _0840   ),
  ("2N1"   , _2IN1   ),
  ("4N1"   , _4IN1   ),
  ("8N1"   , _8IN1   ),
  ("16N"   , _16IN1  ),
  ("16N1"  , _16IN1  ),
  ("32N"   , _32IN1  ),
  ("32N1"  , _32IN1  ),
  ("64N"   , _64IN1  ),
  ("64N1"  , _64IN1  ),
  ("128"   , _128IN1 ),
  ("128N1" , _128IN1 ),
  ("2K"    , _2K     ),
  ("3E"    , _3E     ),
  ("3EP"   , _3EP    ),
  ("3E+"   , _3EP    ),
  ("3F"    , _3F     ),
  ("4A5"   , _4A50   ),
  ("4A50"  , _4A50   ),
  ("4K"    , _4K     ),
  ("4KS"   , _4KSC   ),
  ("4KSC"  , _4KSC   ),
  ("AR"    , _AR     ),
  ("BF"    , _BF     ),
  ("BFS"   , _BFSC   ),
  ("BFSC"  , _BFSC   ),
  ("BUS"   , _BUS    ),
  ("CDF"   , _CDF    ),
  ("CM"    , _CM     ),
  ("CTY"   , _CTY    ),
  ("CV"    , _CV     ),
  ("CVP"   , _CVP    ),
  ("DAS"   , _DASH   ),
  ("DASH"  , _DASH   ),
  ("DF"    , _DF     ),
  ("DFS"   , _DFSC   ),
  ("DFSC"  , _DFSC   ),
  ("DPC"   , _DPC    ),
  ("DPP"   , _DPCP   ),
  ("DPCP"  , _DPCP   ),
  ("E0"    , _E0     ),
  ("E7"    , _E7     ),
  ("E78"   , _E78K   ),
  ("E78K"  , _E78K   ),
  ("EF"    , _EF     ),
  ("EFS"   , _EFSC   ),
  ("EFSC"  , _EFSC   ),
  ("F0"    , _F0     ),
  ("F4"    , _F4     ),
  ("F4S"   , _F4SC   ),
  ("F4SC"  , _F4SC   ),
  ("F6"    , _F6     ),
  ("F6S"   , _F6SC   ),
  ("F6SC"  , _F6SC   ),
  ("F8"    , _F8     ),
  ("F8S"   , _F8SC   ),
  ("F8SC"  , _F8SC   ),
  ("FA"    , _FA     ),
  ("FA2"   , _FA2    ),
  ("FE"    , _FE     ),
  ("MDM"   , _MDM    ),
  ("SB"    , _SB     ),
  ("UA"    , _UA     ),
  ("WD"    , _WD     ),
  ("X07"   , _X07    )]

/-- The name table `Bankswitch::ourNameToTypes` as the ordered key-value
list from which the map is built. -/
def ourNameToTypes : List (String × SchemeId) := [
  ("AUTO"    , _AUTO   ),
  ("0840"    , _0840   ),
  ("2IN1"    , _2IN1   ),
  ("4IN1"    , _4IN1   ),
  ("8IN1"    , _8IN1   ),
  ("16IN1"   , _16IN1  ),
  ("32IN1"   , _32IN1  ),
  ("64IN1"   , _64IN1  ),
  ("128IN1"  , _128IN1 ),
  ("2K"      , _2K     ),
  ("3E"      , _3E     ),
  ("3E+"     , _3EP    ),
  ("3F"      , _3F     ),
  ("4A50"    , _4A50   ),
  ("4K"      , _4K     ),
  ("4KSC"    , _4KSC   ),
  ("AR"      , _AR     ),
  ("BF"      , _BF     ),
  ("BFSC"    , _BFSC   ),
  ("BUS"     , _BUS    ),
  ("CDF"     , _CDF    ),
  ("CM"      , _CM     ),
  ("CTY"     , _CTY    ),
  ("CV"      , _CV     ),
  ("CV+"     , _CVP    ),
  ("DASH"    , _DASH   ),
  ("DF"      , _DF     ),
  ("DFSC"    , _DFSC   ),
  ("DPC"     , _DPC    ),
  ("DPC+"    , _DPCP   ),
  ("E0"      , _E0     ),
  ("E7"      , _E7     ),
  ("E78K"    , _E78K   ),
  ("EF"      , _EF     ),
  ("EFSC"    , _EFSC   ),
  ("F0"      , _F0     ),
  ("F4"      , _F4     ),
  ("F4SC"    , _F4SC   ),
  ("F6"      , _F6     ),
  ("F6SC"    , _F6SC   ),
  ("F8"      , _F8     ),
  ("F8SC"    , _F8SC   ),
  ("FA"      , _FA     ),
  ("FA2"     , _FA2    ),
  ("FE"      , _FE     ),
  ("MDM"     , _MDM    ),
  ("SB"      , _SB     ),
  ("UA"      , _UA     ),
  ("WD"      , _WD     ),
  ("X07"     , _X07    )]

/-- ASCII-lowercase of a string, character by character. -/
def lowerStr (s : String) : String := String.mk (s.data.map Char.toLower)

/-- Modelled from the spec: the key comparison of `ExtensionMap`
(declared in the missing header `Bankswitch.hxx`) ignores letter case —
the spec's scenario requires the filename "megaboy.f0" to resolve through
the catalog entry whose key is "F0". -/
def extKeyEq (k e : String) : Bool := lowerStr k == lowerStr e

/-- Lookup in the extension map: first table entry whose key matches the
probed extension case-insensitively. -/
def extFind (e : String) : Option SchemeId :=
  (ourExtensions.find? (fun p => extKeyEq p.1 e)).map (fun p => p.2)

/-- Modelled from the spec: the key comparison of `NameToTypeMap`
(declared in the missing header `Bankswitch.hxx`) is an exact,
case-sensitive string match. -/
def nameKeyEq (k n : String) : Bool := k == n

/-- Lookup in the name map: first table entry whose key equals the token. -/
def nameFind (n : String) : Option SchemeId :=
  (ourNameToTypes.find? (fun p => nameKeyEq p.1 n)).map (fun p => p.2)

/-- The characters after the last '.' of a character list, or `none` when
no '.' occurs — embedding `name.find_last_of('.')` followed by taking the
suffix `name.c_str() + idx + 1`. -/
def afterLastDot? : List Char → Option (List Char)
  | [] => none
  | c :: rest =>
    match afterLastDot? rest with
    | some t => some t
    | none => if c == '.' then some rest else none

/-- `Bankswitch::nameToType`: exact lookup in the name map, defaulting to
AUTO on a miss. -/
def nameToType (name : String) : SchemeId :=
  (nameFind name).getD _AUTO

/-- `Bankswitch::typeFromExtension`: take the substring after the last
'.' of the path and look it up in the extension map; AUTO when there is
no '.' or the lookup misses. -/
def typeFromExtension (name : String) : SchemeId :=
  match afterLastDot? name.data with
  | none => _AUTO
  | some e => (extFind (String.mk e)).getD _AUTO

/-- `Bankswitch::isValidRomName`: recognized iff an extension is present
and found in the extension map; returns the matched extension substring
on success (the C++ out-parameter `ext`). -/
def isValidRomName (name : String) : Option String :=
  match afterLastDot? name.data with
  | none => none
  | some e => if (extFind (String.mk e)).isSome then some (String.mk e) else none

/-- Modelled from the spec: inserting a key-value pair into an index
under construction rejects the insertion when the key is already present
(duplicate detection; the map type itself is declared in the missing
header `Bankswitch.hxx`, and the spec requires construction to fail fast
on a duplicate token). -/
def insertUnique (keyEq : String → String → Bool)
    (m : List (String × SchemeId)) (kv : String × SchemeId) :
    Option (List (String × SchemeId)) :=
  if m.any (fun p => keyEq p.1 kv.1) then none else some (m ++ [kv])

/-- Modelled from the spec: building a lookup index from the literal
entry list, failing fast when a duplicate token insertion is detected. -/
def buildIndex (keyEq : String → String → Bool)
    (entries : List (String × SchemeId)) :
    Option (List (String × SchemeId)) :=
  entries.foldl (fun acc kv => acc.bind (fun m => insertUnique keyEq m kv)) (some [])

end Bankswitch

namespace Stella

/-- The external console engine, embedded as an abstract record of the
operations `StellaLIBRETRO.cxx` invokes on it: RIOT poke and RAM read,
controller and switch sampling, TIA scanline stepping and queries,
rendering, audio dequeue, and the StateManager serialize/deserialize
pair.  `stateSave` returns the serialized byte sequence or `none` when
`StateManager::saveState` reports failure; `stateLoad` returns the
success flag of `StateManager::loadState` together with the engine state
after the attempt. -/
structure EngineOps (σ : Type) where
  poke : Nat → Nat → σ → σ
  getRAM : σ → List Nat
  updateLeftController : σ → σ
  updateRightController : σ → σ
  updateSwitches : σ → σ
  updateScanline : σ → σ
  scanlines : σ → Nat
  newFramePending : σ → Bool
  renderToFrameBuffer : σ → σ
  updateFrameBuffer : σ → σ
  dequeue : σ → List Int × σ
  stateSave : σ → Option (List Nat)
  stateLoad : List Nat → σ → Bool × σ

/-- The driver-owned part of `StellaLIBRETRO`: the engine handle, the
128-byte RAM mirror `system_ram`, the `video_ready` flag and the audio
buffer with its live sample count. -/
structure DriverState (σ : Type) where
  engine : σ
  system_ram : List Nat
  video_ready : Bool
  audio_buffer : List Int
  audio_samples : Nat
deriving DecidableEq

variable {σ : Type}

/-- The RAM-mirror write of `runFrame`:
`for(lcv = 0; lcv <= 127; lcv++) poke(lcv | 0x80, system_ram[lcv])`. -/
def writeRamUpdates (ops : EngineOps σ) (ram : List Nat) (e : σ) : σ :=
  (List.range 128).foldl (fun acc lcv => ops.poke (lcv ||| 0x80) (ram.getD lcv 0) acc) e

/-- `StellaLIBRETRO::updateInput`: left controller, right controller,
then console switches. -/
def updateInput (ops : EngineOps σ) (e : σ) : σ :=
  ops.updateSwitches (ops.updateRightController (ops.updateLeftController e))

/-- The scanline loop of `StellaLIBRETRO::updateVideo`:
`while(1) { tia.updateScanline(); if(tia.scanlines() == 0) break; }`,
with explicit fuel standing in for the engine's bounded scanline count;
`none` means the bound was exhausted without the engine reporting zero
remaining scanlines. -/
def scanlineLoop (ops : EngineOps σ) : Nat → σ → Option σ
  | 0, _ => none
  | fuel + 1, s =>
    let s1 := ops.updateScanline s
    if ops.scanlines s1 = 0 then some s1 else scanlineLoop ops fuel s1

/-- The scanline loop together with the number of iterations it ran. -/
def scanlineLoopCnt (ops : EngineOps σ) : Nat → σ → Option (σ × Nat)
  | 0, _ => none
  | fuel + 1, s =>
    let s1 := ops.updateScanline s
    if ops.scanlines s1 = 0 then some (s1, 1)
    else (scanlineLoopCnt ops fuel s1).map (fun p => (p.1, p.2 + 1))

/-- `StellaLIBRETRO::updateVideo`: run the scanline loop, read
`newFramePending` into `video_ready`, and when it is set render to the
frame buffer and update it in emulation mode. -/
def updateVideo (ops : EngineOps σ) (fuel : Nat) (e : σ) : Option (Bool × σ) :=
  (scanlineLoop ops fuel e).map (fun s1 =>
    let vr := ops.newFramePending s1
    if vr then (true, ops.updateFrameBuffer (ops.renderToFrameBuffer s1)) else (false, s1))

/-- `StellaLIBRETRO::runFrame`: write the RAM mirror into the RIOT in
ascending address order, sample input, run the video update, drain audio,
then refresh the mirror from the engine's RAM (`memcpy(..., 128)`). -/
def runFrame (ops : EngineOps σ) (fuel : Nat) (st : DriverState σ) :
    Option (DriverState σ) :=
  let e1 := writeRamUpdates ops st.system_ram st.engine
  let e2 := updateInput ops e1
  (updateVideo ops fuel e2).map (fun vr_e3 =>
    let buf_e4 := ops.dequeue vr_e3.2
    { engine := buf_e4.2
      system_ram := (ops.getRAM buf_e4.2).take 128
      video_ready := vr_e3.1
      audio_buffer := buf_e4.1
      audio_samples := buf_e4.1.length })

/-- `StellaLIBRETRO::loadState`: hand the bytes to the StateManager; on
failure return false (the mirror is not touched); on success refresh the
RAM mirror from the restored engine and return true. -/
def loadState (ops : EngineOps σ) (st : DriverState σ) (data : List Nat) :
    Bool × DriverState σ :=
  let ok_e := ops.stateLoad data st.engine
  if ok_e.1 then
    (true, { st with engine := ok_e.2, system_ram := (ops.getRAM ok_e.2).take 128 })
  else
    (false, { st with engine := ok_e.2 })

/-- `StellaLIBRETRO::saveState`: serialize; fail if the StateManager
fails or the serialized size exceeds the destination capacity (the
destination is returned unchanged in both cases); otherwise copy exactly
the serialized bytes into the front of the destination and succeed. -/
def saveState (ops : EngineOps σ) (e : σ) (dest : List Nat) : Bool × List Nat :=
  match ops.stateSave e with
  | none => (false, dest)
  | some bytes =>
    if bytes.length > dest.length then (false, dest)
    else (true, bytes ++ dest.drop bytes.length)

/-- `StellaLIBRETRO::getStateSize`: size of the serialized state, zero
when the StateManager fails. -/
def getStateSize (ops : EngineOps σ) (e : σ) : Nat :=
  match ops.stateSave e with
  | none => 0
  | some bytes => bytes.length

/-- One hosted frame: the host writes its RAM-mirror input into the
session, then the session runs one frame. -/
def stepHosted (ops : EngineOps σ) (fuel : Nat) (st : DriverState σ)
    (input : List Nat) : Option (DriverState σ) :=
  runFrame ops fuel { st with system_ram := input }

/-- The host-visible outputs of one frame: video-ready flag, audio buffer
with its count, and the refreshed RAM mirror. -/
def frameOutputs (st : DriverState σ) : Bool × List Int × Nat × List Nat :=
  (st.video_ready, st.audio_buffer, st.audio_samples, st.system_ram)

/-- The trace of host-visible outputs along a sequence of host RAM-mirror
inputs, `none` as soon as a frame exhausts its scanline bound. -/
def runTrace (ops : EngineOps σ) (fuel : Nat) (st : DriverState σ) :
    List (List Nat) → Option (List (Bool × List Int × Nat × List Nat))
  | [] => some []
  | i :: is =>
    (stepHosted ops fuel st i).bind (fun st' =>
      (runTrace ops fuel st' is).map (fun tr => frameOutputs st' :: tr))

/-- Observable engine calls made by the driver during one frame, used to
state ordering properties of `runFrame`. -/
inductive FrameEv
  | pokeEv (addr val : Nat)
  | leftControllerEv
  | rightControllerEv
  | switchesEv
  | scanStepEv
  | renderEv
  | frameBufferEv
  | audioDrainEv
deriving DecidableEq, Repr

/-- Instrumentation of an engine: the same engine paired with the list of
state-changing calls made on it, in call order. -/
def traced (ops : EngineOps σ) : EngineOps (σ × List FrameEv) where
  poke a v := fun s => (ops.poke a v s.1, s.2 ++ [FrameEv.pokeEv a v])
  getRAM := fun s => ops.getRAM s.1
  updateLeftController := fun s => (ops.updateLeftController s.1, s.2 ++ [FrameEv.leftControllerEv])
  updateRightController := fun s => (ops.updateRightController s.1, s.2 ++ [FrameEv.rightControllerEv])
  updateSwitches := fun s => (ops.updateSwitches s.1, s.2 ++ [FrameEv.switchesEv])
  updateScanline := fun s => (ops.updateScanline s.1, s.2 ++ [FrameEv.scanStepEv])
  scanlines := fun s => ops.scanlines s.1
  newFramePending := fun s => ops.newFramePending s.1
  renderToFrameBuffer := fun s => (ops.renderToFrameBuffer s.1, s.2 ++ [FrameEv.renderEv])
  updateFrameBuffer := fun s => (ops.updateFrameBuffer s.1, s.2 ++ [FrameEv.frameBufferEv])
  dequeue := fun s =>
    let r := ops.dequeue s.1
    (r.1, (r.2, s.2 ++ [FrameEv.audioDrainEv]))
  stateSave := fun s => ops.stateSave s.1
  stateLoad := fun b s =>
    let r := ops.stateLoad b s.1
    (r.1, (r.2, s.2))

/-- A tiny concrete engine over `Nat` state, used to instantiate the
driver theorems on closed inputs. -/
def toyOps : EngineOps Nat where
  poke a v := fun n => n + a + v
  getRAM := fun n => (List.range 128).map (fun i => (n + i) % 256)
  updateLeftController := fun n => n
  updateRightController := fun n => n
  updateSwitches := fun n => n
  updateScanline := fun n => n + 1
  scanlines := fun n => n % 4
  newFramePending := fun n => n % 2 == 0
  renderToFrameBuffer := fun n => n
  updateFrameBuffer := fun n => n
  dequeue := fun n => ([Int.ofNat (n % 3)], n)
  stateSave := fun n => some [n]
  stateLoad := fun b n => (true, b.getD 0 n)

/-- A toy driver state over the toy engine. -/
def toyState : DriverState Nat where
  engine := 5
  system_ram := List.replicate 128 0
  video_ready := false
  audio_buffer := []
  audio_samples := 0

/-- A second toy driver state, used as the session a snapshot is loaded
into. -/
def toyState2 : DriverState Nat where
  engine := 9
  system_ram := List.replicate 128 3
  video_ready := true
  audio_buffer := [2]
  audio_samples := 1

/-- The poke events `runFrame` is expected to emit for a given RAM
mirror: addresses `0x80`..`0xFF` in ascending order, with the mirror
bytes in index order. -/
def expectedPokes (ram : List Nat) : List FrameEv :=
  (List.range 128).map (fun lcv => FrameEv.pokeEv (lcv ||| 0x80) (ram.getD lcv 0))

/-- The input-sampling events `runFrame` is expected to emit, in order. -/
def inputEvs : List FrameEv :=
  [FrameEv.leftControllerEv, FrameEv.rightControllerEv, FrameEv.switchesEv]

/-- A concrete instrumented driver state used to instantiate the frame
ordering theorem. -/
def c6Start : DriverState (Nat × List FrameEv) where
  engine := (5, [])
  system_ram := []
  video_ready := false
  audio_buffer := []
  audio_samples := 0

/-- The driver state `runFrame` produces from `c6Start` over the traced
toy engine. -/
def c6Res : DriverState (Nat × List FrameEv) where
  engine := (24520,
    expectedPokes [] ++ inputEvs ++ List.replicate 3 FrameEv.scanStepEv
      ++ [FrameEv.renderEv, FrameEv.frameBufferEv] ++ [FrameEv.audioDrainEv])
  system_ram := (List.range 128).map (fun i => (24520 + i) % 256)
  video_ready := true
  audio_buffer := [Int.ofNat (24520 % 3)]
  audio_samples := 1

end Stella

namespace Bankswitch

lemma extKeys_nodup : (ourExtensions.map (fun p => lowerStr p.1)).Nodup := by decide

lemma nameKeys_nodup : (ourNameToTypes.map (fun p => p.1)).Nodup := by decide

lemma find_map_eq_of_mem (f : String → String) :
    ∀ (l : List (String × SchemeId)), (l.map (fun p => f p.1)).Nodup →
      ∀ p ∈ l, ∀ e : String, f p.1 = f e →
      (l.find? (fun q => f q.1 == f e)).map (fun q => q.2) = some p.2 := by
  intro l
  induction l with
  | nil => intro _ p hp; cases hp
  | cons a l ih =>
    intro hnd p hp e hk
    rw [List.map_cons, List.nodup_cons] at hnd
    rcases List.mem_cons.mp hp with hp | hp
    · subst hp
      rw [List.find?_cons_of_pos _ (by simp [hk])]
      simp
    · have ha : f a.1 ≠ f e := by
        intro ha
        exact hnd.1 (List.mem_map.mpr ⟨p, hp, by rw [hk, ha]⟩)
      rw [List.find?_cons_of_neg _ (by simp [ha])]
      exact ih hnd.2 p hp e hk

lemma find_eq_none_of_miss (f : String → String) (l : List (String × SchemeId)) (e : String)
    (h : ∀ p ∈ l, f p.1 ≠ f e) : l.find? (fun q => f q.1 == f e) = none := by
  rw [List.find?_eq_none]
  intro x hx
  simp [h x hx]

lemma extFind_eq_some (e : String) (p : String × SchemeId) (hp : p ∈ ourExtensions)
    (hk : lowerStr p.1 = lowerStr e) : extFind e = some p.2 := by
  unfold extFind
  simp only [extKeyEq]
  exact find_map_eq_of_mem lowerStr ourExtensions extKeys_nodup p hp e hk

lemma extFind_eq_none (e : String)
    (hmiss : ∀ p ∈ ourExtensions, lowerStr p.1 ≠ lowerStr e) : extFind e = none := by
  unfold extFind
  simp only [extKeyEq]
  rw [find_eq_none_of_miss lowerStr ourExtensions e hmiss]
  rfl

lemma nameFind_eq_some (n : String) (p : String × SchemeId) (hp : p ∈ ourNameToTypes)
    (hk : p.1 = n) : nameFind n = some p.2 := by
  unfold nameFind
  simp only [nameKeyEq]
  exact find_map_eq_of_mem (fun s => s) ourNameToTypes (by simpa using nameKeys_nodup) p hp n hk

lemma nameFind_eq_none (n : String)
    (hmiss : ∀ p ∈ ourNameToTypes, p.1 ≠ n) : nameFind n = none := by
  unfold nameFind
  simp only [nameKeyEq]
  rw [find_eq_none_of_miss (fun s => s) ourNameToTypes n hmiss]
  rfl

end Bankswitch

namespace Bankswitch

/-- Claim C3: typeFromExtension extracts the substring after the last
'.' of the filename; it returns AUTO when no '.' is present or the
substring is not in the extension index, and the indexed SchemeId when it
is (which may itself be AUTO for the uninformative extensions); in
particular "pitfall2.a26" resolves to AUTO, "megaboy.f0" to the F0
scheme, and an unknown extension such as "xyz123" to AUTO. -/
theorem typeFromExtension_spec :
    (∀ name : String,
      (afterLastDot? name.data = none → typeFromExtension name = _AUTO)
      ∧ (∀ e : List Char, afterLastDot? name.data = some e →
          (∀ p ∈ ourExtensions, lowerStr p.1 ≠ lowerStr (String.mk e)) →
          typeFromExtension name = _AUTO)
      ∧ (∀ e : List Char, ∀ p ∈ ourExtensions, afterLastDot? name.data = some e →
          lowerStr p.1 = lowerStr (String.mk e) → typeFromExtension name = p.2))
    ∧ typeFromExtension ("pitfall2.a26") = _AUTO
    ∧ typeFromExtension ("megaboy.f0") = _F0
    ∧ typeFromExtension ("game.xyz123") = _AUTO := by
  refine ⟨fun name => ⟨?_, ?_, ?_⟩, by decide, by decide, by decide⟩
  · intro h
    simp [typeFromExtension, h]
  · intro e he hmiss
    simp [typeFromExtension, he, extFind_eq_none (String.mk e) hmiss]
  · intro e p hp he hk
    simp [typeFromExtension, he, extFind_eq_some (String.mk e) p hp hk]

theorem typeFromExtension_witness :
    typeFromExtension ("megaboy.f0") = _F0 ∧ typeFromExtension ("nodotshere") = _AUTO :=
  ⟨(typeFromExtension_spec.1 ("megaboy.f0")).2.2 (['f', '0']) (("F0", _F0)) (by decide)
      (by decide) (by decide),
   (typeFromExtension_spec.1 ("nodotshere")).1 (by decide)⟩

/-- Claim C4: nameToType performs an exact, case-sensitive match against
the name index, returning the indexed SchemeId on a match and AUTO on any
unmatched token; in particular "DPC+" returns the DPC+ scheme id and the
wrong-case "dpc+" returns AUTO. -/
theorem nameToType_spec :
    (∀ tok : String,
      ((∀ p ∈ ourNameToTypes, p.1 ≠ tok) → nameToType tok = _AUTO)
      ∧ (∀ p ∈ ourNameToTypes, p.1 = tok → nameToType tok = p.2))
    ∧ nameToType ("DPC+") = _DPCP
    ∧ nameToType ("dpc+") = _AUTO
    ∧ nameToType ("NOTASCHEME") = _AUTO := by
  refine ⟨fun tok => ⟨?_, ?_⟩, by decide, by decide, by decide⟩
  · intro hmiss
    simp [nameToType, nameFind_eq_none tok hmiss]
  · intro p hp hk
    simp [nameToType, nameFind_eq_some tok p hp hk]

theorem nameToType_witness :
    nameToType ("DPC+") = _DPCP ∧ nameToType ("NOTASCHEME") = _AUTO :=
  ⟨(nameToType_spec.1 ("DPC+")).2 (("DPC+", _DPCP)) (by decide) (by decide),
   (nameToType_spec.1 ("NOTASCHEME")).1 (by decide)⟩

/-- Claim C9: isValidRomName is recognized exactly when an extension is
present after the last '.' and found in the extension index, regardless
of whether the resolved id is AUTO, and on success yields the matched
extension substring; in particular "game.bin" is recognized with
extension "bin" although "bin" resolves to AUTO, while "game.xyz" is not
recognized. -/
theorem isValidRomName_spec :
    (∀ name : String,
      ((isValidRomName name).isSome ↔
        ∃ e : List Char, afterLastDot? name.data = some e ∧
          ∃ p ∈ ourExtensions, lowerStr p.1 = lowerStr (String.mk e))
      ∧ (∀ e : List Char, afterLastDot? name.data = some e →
          ∀ p ∈ ourExtensions, lowerStr p.1 = lowerStr (String.mk e) →
          isValidRomName name = some (String.mk e)))
    ∧ isValidRomName ("game.bin") = some ("bin")
    ∧ typeFromExtension ("game.bin") = _AUTO
    ∧ isValidRomName ("game.xyz") = none := by
  refine ⟨fun name => ⟨⟨?_, ?_⟩, ?_⟩, by decide, by decide, by decide⟩
  · intro hs
    rcases hx : afterLastDot? name.data with _ | e
    · simp [isValidRomName, hx] at hs
    · refine ⟨e, rfl, ?_⟩
      simp only [isValidRomName, hx] at hs
      rcases hf : extFind (String.mk e) with _ | t
      · rw [hf] at hs
        simp at hs
      · unfold extFind at hf
        rcases Option.map_eq_some'.mp hf with ⟨q, hq, hqt⟩
        refine ⟨q, List.mem_of_find?_eq_some hq, ?_⟩
        have hqk := List.find?_some hq
        simpa [extKeyEq] using hqk
  · rintro ⟨e, he, p, hp, hk⟩
    simp [isValidRomName, he, extFind_eq_some (String.mk e) p hp hk]
  · intro e he p hp hk
    simp [isValidRomName, he, extFind_eq_some (String.mk e) p hp hk]

theorem isValidRomName_witness :
    isValidRomName ("game.bin") = some ("bin") ∧ (isValidRomName ("game.bin")).isSome :=
  ⟨(isValidRomName_spec.1 ("game.bin")).2 (['b', 'i', 'n']) (by decide) (("bin", _AUTO))
      (by decide) (by decide),
   ((isValidRomName_spec.1 ("game.bin")).1).mpr
      ⟨['b', 'i', 'n'], by decide, ("bin", _AUTO), by decide, by decide⟩⟩

end Bankswitch

namespace Bankswitch

lemma buildIndexGo_none (keyEq : String → String → Bool) :
    ∀ (entries : List (String × SchemeId)),
      entries.foldl (fun acc kv => acc.bind (fun m => insertUnique keyEq m kv)) none = none := by
  intro entries
  induction entries with
  | nil => rfl
  | cons a l ih =>
    rw [List.foldl_cons]
    exact ih

lemma buildIndexAux_none (keyEq : String → String → Bool) :
    ∀ (entries m : List (String × SchemeId)),
      (¬ entries.Pairwise (fun a b => keyEq a.1 b.1 = false)
        ∨ ∃ e ∈ entries, ∃ a ∈ m, keyEq a.1 e.1 = true) →
      entries.foldl (fun acc kv => acc.bind (fun mm => insertUnique keyEq mm kv)) (some m) = none := by
  intro entries
  induction entries with
  | nil =>
    intro m h
    rcases h with h | ⟨e, he, _⟩
    · exact absurd List.Pairwise.nil h
    · cases he
  | cons kv rest ih =>
    intro m h
    rw [List.foldl_cons]
    by_cases hdup : m.any (fun p => keyEq p.1 kv.1)
    · have hins : ((some m).bind (fun mm => insertUnique keyEq mm kv)) = none := by
        simp [insertUnique, hdup]
      rw [hins]
      exact buildIndexGo_none keyEq rest
    · have hone : insertUnique keyEq m kv = some (m ++ [kv]) := by
        unfold insertUnique
        rw [if_neg hdup]
      rw [show ((some m).bind (fun mm => insertUnique keyEq mm kv))
            = insertUnique keyEq m kv from rfl, hone]
      apply ih
      rcases h with h | ⟨e, he, a, ha, hk⟩
      · rw [List.pairwise_cons] at h
        rcases Decidable.not_and_iff_or_not.mp h with h1 | h2
        · push_neg at h1
          rcases h1 with ⟨b, hb, hkb⟩
          exact Or.inr ⟨b, hb, kv, List.mem_append_right m (List.mem_singleton.mpr rfl),
            by simpa using hkb⟩
        · exact Or.inl h2
      · rcases List.mem_cons.mp he with rfl | he'
        · exact absurd (List.any_eq_true.mpr ⟨a, ha, hk⟩) hdup
        · exact Or.inr ⟨e, he', a, List.mem_append_left _ ha, hk⟩

end Bankswitch

namespace Bankswitch

set_option maxRecDepth 8192 in
/-- Claim C5: no two distinct SchemeIds share a canonical token, each
extension token maps to exactly one SchemeId, both lookup indices build
successfully from the literal tables, and index construction fails fast
whenever a duplicate token insertion is detected. -/
theorem catalogIndices_spec :
    (∀ s t : SchemeId, typeToName s = typeToName t → s = t)
    ∧ (∀ p ∈ ourExtensions, ∀ q ∈ ourExtensions, lowerStr p.1 = lowerStr q.1 → p.2 = q.2)
    ∧ buildIndex extKeyEq ourExtensions = some ourExtensions
    ∧ buildIndex nameKeyEq ourNameToTypes = some ourNameToTypes
    ∧ (∀ (keyEq : String → String → Bool) (entries : List (String × SchemeId)),
        ¬ entries.Pairwise (fun a b => keyEq a.1 b.1 = false) →
        buildIndex keyEq entries = none) := by
  refine ⟨by decide, by decide, by decide, by decide, ?_⟩
  intro keyEq entries h
  exact buildIndexAux_none keyEq entries [] (Or.inl h)

theorem catalogIndices_witness :
    buildIndex (fun a b => a == b) [("X07", _X07), ("X07", _AUTO)] = none ∧
    Bankswitch._F0 = Bankswitch._F0 :=
  ⟨catalogIndices_spec.2.2.2.2 (fun a b => a == b) ([("X07", _X07), ("X07", _AUTO)])
      (by decide),
   catalogIndices_spec.1 _F0 _F0 rfl⟩

end Bankswitch

namespace Stella

variable {σ : Type}

lemma scanlineLoop_eq_cnt (ops : EngineOps σ) :
    ∀ (fuel : Nat) (s : σ),
      scanlineLoop ops fuel s = (scanlineLoopCnt ops fuel s).map (fun p => p.1) := by
  intro fuel
  induction fuel with
  | zero => intro s; rfl
  | succ fuel ih =>
    intro s
    simp only [scanlineLoop, scanlineLoopCnt]
    by_cases h : ops.scanlines (ops.updateScanline s) = 0
    · simp [h]
    · simp only [h, if_false, ih]
      cases scanlineLoopCnt ops fuel (ops.updateScanline s) <;> simp

lemma scanlineLoopCnt_sound (ops : EngineOps σ) :
    ∀ (fuel : Nat) (s : σ) (r : σ × Nat), scanlineLoopCnt ops fuel s = some r →
      1 ≤ r.2 ∧ r.2 ≤ fuel ∧ r.1 = ops.updateScanline^[r.2] s ∧
      ops.scanlines r.1 = 0 ∧
      ∀ j, 1 ≤ j → j < r.2 → ops.scanlines (ops.updateScanline^[j] s) ≠ 0 := by
  intro fuel
  induction fuel with
  | zero => intro s r h; cases h
  | succ fuel ih =>
    intro s r h
    simp only [scanlineLoopCnt] at h
    by_cases h0 : ops.scanlines (ops.updateScanline s) = 0
    · rw [if_pos h0] at h
      cases h
      refine ⟨Nat.le_refl 1, Nat.succ_le_succ (Nat.zero_le fuel), ?_, h0, ?_⟩
      · simp
      · intro j hj1 hj2
        exact absurd hj2 (Nat.not_lt.mpr hj1)
    · rw [if_neg h0] at h
      rcases Option.map_eq_some'.mp h with ⟨p, hp, hr⟩
      rcases ih (ops.updateScanline s) p hp with ⟨hp1, hp2, hp3, hp4, hp5⟩
      subst hr
      refine ⟨Nat.le_succ_of_le hp1, Nat.succ_le_succ hp2, ?_, hp4, ?_⟩
      · simp only [Function.iterate_succ_apply]
        exact hp3
      · intro j hj1 hj2
        rcases j with _ | i
        · exact absurd hj1 (by decide)
        · rw [Function.iterate_succ_apply]
          rcases Nat.eq_zero_or_pos i with rfl | hi
          · simpa using h0
          · exact hp5 i hi (by omega)

lemma scanlineLoop_isSome (ops : EngineOps σ) :
    ∀ (fuel : Nat) (s : σ) (k : Nat), 1 ≤ k → k ≤ fuel →
      ops.scanlines (ops.updateScanline^[k] s) = 0 →
      (scanlineLoop ops fuel s).isSome := by
  intro fuel
  induction fuel with
  | zero =>
    intro s k h1 h2 _
    exact absurd (Nat.le_trans h1 h2) (by decide)
  | succ fuel ih =>
    intro s k h1 h2 hk
    simp only [scanlineLoop]
    by_cases h0 : ops.scanlines (ops.updateScanline s) = 0
    · rw [if_pos h0]
      rfl
    · rw [if_neg h0]
      rcases k with _ | m
      · exact absurd h1 (by decide)
      · rcases Nat.eq_zero_or_pos m with rfl | hm
        · rw [Function.iterate_one] at hk
          exact absurd hk h0
        · apply ih (ops.updateScanline s) m hm (by omega)
          rw [← Function.iterate_succ_apply]
          exact hk

end Stella

namespace Stella

lemma foldl_poke_traced (ops : EngineOps σ) (ram : List Nat) :
    ∀ (l : List Nat) (s : σ) (t : List FrameEv),
      l.foldl (fun acc lcv => (traced ops).poke (lcv ||| 0x80) (ram.getD lcv 0) acc) (s, t)
      = (l.foldl (fun acc lcv => ops.poke (lcv ||| 0x80) (ram.getD lcv 0) acc) s,
         t ++ l.map (fun lcv => FrameEv.pokeEv (lcv ||| 0x80) (ram.getD lcv 0))) := by
  intro l
  induction l with
  | nil => intro s t; simp
  | cons a l ih =>
    intro s t
    rw [List.foldl_cons, List.foldl_cons]
    rw [show (traced ops).poke (a ||| 0x80) (ram.getD a 0) (s, t)
          = (ops.poke (a ||| 0x80) (ram.getD a 0) s,
             t ++ [FrameEv.pokeEv (a ||| 0x80) (ram.getD a 0)]) from rfl]
    rw [ih]
    simp

lemma writeRamUpdates_traced (ops : EngineOps σ) (ram : List Nat) (s : σ) (t : List FrameEv) :
    writeRamUpdates (traced ops) ram (s, t)
      = (writeRamUpdates ops ram s, t ++ expectedPokes ram) := by
  unfold writeRamUpdates expectedPokes
  exact foldl_poke_traced ops ram (List.range 128) s t

lemma updateInput_traced (ops : EngineOps σ) (s : σ) (t : List FrameEv) :
    updateInput (traced ops) (s, t) = (updateInput ops s, t ++ inputEvs) := by
  unfold updateInput inputEvs
  rw [show (traced ops).updateLeftController (s, t)
        = (ops.updateLeftController s, t ++ [FrameEv.leftControllerEv]) from rfl]
  rw [show (traced ops).updateRightController
          (ops.updateLeftController s, t ++ [FrameEv.leftControllerEv])
        = (ops.updateRightController (ops.updateLeftController s),
           (t ++ [FrameEv.leftControllerEv]) ++ [FrameEv.rightControllerEv]) from rfl]
  rw [show (traced ops).updateSwitches
          (ops.updateRightController (ops.updateLeftController s),
           (t ++ [FrameEv.leftControllerEv]) ++ [FrameEv.rightControllerEv])
        = (ops.updateSwitches (ops.updateRightController (ops.updateLeftController s)),
           ((t ++ [FrameEv.leftControllerEv]) ++ [FrameEv.rightControllerEv])
             ++ [FrameEv.switchesEv]) from rfl]
  simp

lemma scanlineLoop_traced (ops : EngineOps σ) :
    ∀ (fuel : Nat) (s : σ) (t : List FrameEv),
      scanlineLoop (traced ops) fuel (s, t)
      = (scanlineLoopCnt ops fuel s).map
          (fun p => (p.1, t ++ List.replicate p.2 FrameEv.scanStepEv)) := by
  intro fuel
  induction fuel with
  | zero => intro s t; rfl
  | succ fuel ih =>
    intro s t
    simp only [scanlineLoop, scanlineLoopCnt]
    rw [show (traced ops).updateScanline (s, t)
          = (ops.updateScanline s, t ++ [FrameEv.scanStepEv]) from rfl]
    rw [show (traced ops).scanlines (ops.updateScanline s, t ++ [FrameEv.scanStepEv])
          = ops.scanlines (ops.updateScanline s) from rfl]
    by_cases h : ops.scanlines (ops.updateScanline s) = 0
    · rw [if_pos h, if_pos h]
      simp
    · rw [if_neg h, if_neg h]
      rw [ih]
      cases scanlineLoopCnt ops fuel (ops.updateScanline s) with
      | none => rfl
      | some p =>
        simp [List.replicate_succ]

lemma updateVideo_traced (ops : EngineOps σ) (fuel : Nat) (s : σ) (t : List FrameEv) :
    updateVideo (traced ops) fuel (s, t)
    = (scanlineLoopCnt ops fuel s).map (fun p =>
        if ops.newFramePending p.1 then
          (true, (ops.updateFrameBuffer (ops.renderToFrameBuffer p.1),
            (t ++ List.replicate p.2 FrameEv.scanStepEv)
              ++ [FrameEv.renderEv, FrameEv.frameBufferEv]))
        else (false, (p.1, t ++ List.replicate p.2 FrameEv.scanStepEv))) := by
  unfold updateVideo
  rw [scanlineLoop_traced]
  rw [Option.map_map]
  cases scanlineLoopCnt ops fuel s with
  | none => rfl
  | some p =>
    simp only [Option.map_some', Function.comp_apply]
    rw [show (traced ops).newFramePending (p.1, t ++ List.replicate p.2 FrameEv.scanStepEv)
          = ops.newFramePending p.1 from rfl]
    by_cases h : ops.newFramePending p.1
    · rw [if_pos h, if_pos h]
      rw [show (traced ops).renderToFrameBuffer (p.1, t ++ List.replicate p.2 FrameEv.scanStepEv)
            = (ops.renderToFrameBuffer p.1,
               (t ++ List.replicate p.2 FrameEv.scanStepEv) ++ [FrameEv.renderEv]) from rfl]
      rw [show (traced ops).updateFrameBuffer
              (ops.renderToFrameBuffer p.1,
               (t ++ List.replicate p.2 FrameEv.scanStepEv) ++ [FrameEv.renderEv])
            = (ops.updateFrameBuffer (ops.renderToFrameBuffer p.1),
               ((t ++ List.replicate p.2 FrameEv.scanStepEv) ++ [FrameEv.renderEv])
                 ++ [FrameEv.frameBufferEv]) from rfl]
      simp
    · rw [if_neg h, if_neg h]

end Stella

namespace Stella

lemma runFrame_traced_eq (ops : EngineOps σ) (fuel : Nat) (s0 : σ) (t0 : List FrameEv)
    (ram : List Nat) (v : Bool) (ab : List Int) (an : Nat) :
    runFrame (traced ops) fuel ⟨(s0, t0), ram, v, ab, an⟩
    = (scanlineLoopCnt ops fuel (updateInput ops (writeRamUpdates ops ram s0))).map
        (fun p =>
          { engine :=
              ((ops.dequeue (if ops.newFramePending p.1 then
                  ops.updateFrameBuffer (ops.renderToFrameBuffer p.1) else p.1)).2,
               t0 ++ expectedPokes ram ++ inputEvs
                 ++ List.replicate p.2 FrameEv.scanStepEv
                 ++ (if ops.newFramePending p.1 then
                      [FrameEv.renderEv, FrameEv.frameBufferEv] else [])
                 ++ [FrameEv.audioDrainEv])
            system_ram :=
              (ops.getRAM (ops.dequeue (if ops.newFramePending p.1 then
                  ops.updateFrameBuffer (ops.renderToFrameBuffer p.1) else p.1)).2).take 128
            video_ready := ops.newFramePending p.1
            audio_buffer :=
              (ops.dequeue (if ops.newFramePending p.1 then
                  ops.updateFrameBuffer (ops.renderToFrameBuffer p.1) else p.1)).1
            audio_samples :=
              (ops.dequeue (if ops.newFramePending p.1 then
                  ops.updateFrameBuffer (ops.renderToFrameBuffer p.1) else p.1)).1.length }) := by
  unfold runFrame
  simp only [writeRamUpdates_traced, updateInput_traced, updateVideo_traced, Option.map_map]
  cases hc : scanlineLoopCnt ops fuel (updateInput ops (writeRamUpdates ops ram s0)) with
  | none => rfl
  | some p =>
    simp only [Option.map_some', Function.comp_apply]
    by_cases hpend : ops.newFramePending p.1 = true
    · simp [traced, hpend, List.append_assoc]
    · simp [traced, hpend, List.append_assoc]

end Stella

namespace Stella

/-- Claim C8: the video stepping loop inside runFrame advances the engine
by exactly one scanline per iteration and terminates precisely when the
engine first reports zero remaining scanlines; under the precondition
that the engine reaches zero remaining scanlines within the bound, the
loop terminates, performing no bound-checking of its own. -/
theorem scanlineLoop_spec (σ : Type) (ops : EngineOps σ) (fuel : Nat) (s : σ) :
    (∀ r : σ × Nat, scanlineLoopCnt ops fuel s = some r →
      1 ≤ r.2 ∧ r.1 = ops.updateScanline^[r.2] s ∧ ops.scanlines r.1 = 0 ∧
      ∀ j, 1 ≤ j → j < r.2 → ops.scanlines (ops.updateScanline^[j] s) ≠ 0)
    ∧ ((∃ k, 1 ≤ k ∧ k ≤ fuel ∧ ops.scanlines (ops.updateScanline^[k] s) = 0) →
        (scanlineLoop ops fuel s).isSome) := by
  constructor
  · intro r h
    rcases scanlineLoopCnt_sound ops fuel s r h with ⟨h1, _, h3, h4, h5⟩
    exact ⟨h1, h3, h4, h5⟩
  · rintro ⟨k, hk1, hk2, hk3⟩
    exact scanlineLoop_isSome ops fuel s k hk1 hk2 hk3

theorem scanlineLoop_spec_witness :
    (scanlineLoop toyOps 8 5).isSome ∧ toyOps.scanlines ((8 : Nat)) = 0 :=
  ⟨(scanlineLoop_spec Nat toyOps 8 5).2 ⟨3, by decide, by decide, by decide⟩,
   ((scanlineLoop_spec Nat toyOps 8 5).1 ((8, 3)) (by decide)).2.2.1⟩

/-- Claim C6: a runFrame call executes its phases strictly in order — the
128 RAM-mirror bytes are poked one at a time at ascending addresses
0x80..0xFF, then input is sampled once (left controller, right
controller, switches), then the scanline loop runs, then audio is
drained, and finally the mirror is refreshed from the engine's current
RAM — as witnessed by the trace of engine calls the frame emits. -/
theorem runFrame_order_spec (σ : Type) (ops : EngineOps σ) (fuel : Nat)
    (st st' : DriverState (σ × List FrameEv))
    (h0 : st.engine.2 = [])
    (h : runFrame (traced ops) fuel st = some st') :
    (∃ k, 1 ≤ k ∧
      st'.engine.2 =
        expectedPokes st.system_ram ++ inputEvs
          ++ List.replicate k FrameEv.scanStepEv
          ++ (if st'.video_ready then [FrameEv.renderEv, FrameEv.frameBufferEv] else [])
          ++ [FrameEv.audioDrainEv])
    ∧ st'.system_ram = ((traced ops).getRAM st'.engine).take 128 := by
  obtain ⟨⟨s0, t0⟩, ram, v, ab, an⟩ := st
  have ht0 : t0 = [] := h0
  subst ht0
  rw [runFrame_traced_eq] at h
  rcases Option.map_eq_some'.mp h with ⟨p, hp, hst⟩
  subst hst
  have hk1 := (scanlineLoopCnt_sound ops fuel _ p hp).1
  constructor
  · refine ⟨p.2, hk1, ?_⟩
    by_cases hpend : ops.newFramePending p.1 = true
    · simp [hpend, List.append_assoc]
    · simp [hpend, List.append_assoc]
  · rfl

set_option maxRecDepth 65536 in
theorem runFrame_order_spec_witness :
    (∃ k, 1 ≤ k ∧
      c6Res.engine.2 =
        expectedPokes c6Start.system_ram ++ inputEvs
          ++ List.replicate k FrameEv.scanStepEv
          ++ (if c6Res.video_ready then [FrameEv.renderEv, FrameEv.frameBufferEv] else [])
          ++ [FrameEv.audioDrainEv])
    ∧ c6Res.system_ram = ((traced toyOps).getRAM c6Res.engine).take 128 :=
  runFrame_order_spec Nat toyOps 8 c6Start c6Res rfl (by decide)

/-- Claim C7: after the scanline loop, the video-ready flag equals the
engine's frame-pending report; render-to-buffer is invoked exactly when
the flag is true, and when it is false the engine (and hence the video
buffer) is left exactly as the loop left it, with no render call in the
trace. -/
theorem updateVideo_ready_spec (σ : Type) (ops : EngineOps σ) (fuel : Nat) (e : σ)
    (r : Bool × (σ × List FrameEv))
    (h : updateVideo (traced ops) fuel (e, []) = some r) :
    ∃ p, scanlineLoopCnt ops fuel e = some p ∧
      r.1 = ops.newFramePending p.1 ∧
      (r.1 = true → r.2.1 = ops.updateFrameBuffer (ops.renderToFrameBuffer p.1)
        ∧ FrameEv.renderEv ∈ r.2.2) ∧
      (r.1 = false → r.2.1 = p.1 ∧ FrameEv.renderEv ∉ r.2.2) := by
  rw [updateVideo_traced] at h
  rcases Option.map_eq_some'.mp h with ⟨p, hp, hr⟩
  subst hr
  refine ⟨p, hp, ?_, ?_, ?_⟩
  · by_cases hpend : ops.newFramePending p.1 = true
    · simp [hpend]
    · simp [hpend]
  · intro htrue
    by_cases hpend : ops.newFramePending p.1 = true
    · simp [hpend]
    · simp [hpend] at htrue
  · intro hfalse
    by_cases hpend : ops.newFramePending p.1 = true
    · simp [hpend] at hfalse
    · refine ⟨by simp [hpend], ?_⟩
      simp only [if_neg hpend]
      intro hmem
      rcases List.mem_append.mp hmem with hm | hm
      · cases hm
      · exact absurd (List.eq_of_mem_replicate hm) (by decide)

theorem updateVideo_ready_spec_witness :
    ∃ p, scanlineLoopCnt toyOps 8 5 = some p ∧
      (true : Bool) = toyOps.newFramePending p.1 ∧
      ((true : Bool) = true →
        (8 : Nat) = toyOps.updateFrameBuffer (toyOps.renderToFrameBuffer p.1)
        ∧ FrameEv.renderEv ∈ [FrameEv.scanStepEv, FrameEv.scanStepEv, FrameEv.scanStepEv,
            FrameEv.renderEv, FrameEv.frameBufferEv]) ∧
      ((true : Bool) = false →
        (8 : Nat) = p.1 ∧ FrameEv.renderEv ∉ [FrameEv.scanStepEv, FrameEv.scanStepEv,
            FrameEv.scanStepEv, FrameEv.renderEv, FrameEv.frameBufferEv]) :=
  updateVideo_ready_spec Nat toyOps 8 5
    ((true, (8, [FrameEv.scanStepEv, FrameEv.scanStepEv, FrameEv.scanStepEv,
      FrameEv.renderEv, FrameEv.frameBufferEv]))) (by decide)

end Stella

namespace Stella

/-- Claim C1: saveState fails, leaving the destination untouched, exactly
when the serialized size exceeds the destination capacity, and otherwise
copies exactly the serialized bytes into the destination and succeeds; in
particular a buffer smaller than getStateSize fails untouched and a
buffer of exactly getStateSize bytes succeeds (when serialization itself
succeeds). -/
theorem saveState_capacity_spec (σ : Type) (ops : EngineOps σ) (e : σ) (dest : List Nat) :
    (∀ bytes : List Nat, ops.stateSave e = some bytes →
      (bytes.length > dest.length → saveState ops e dest = (false, dest))
      ∧ (bytes.length ≤ dest.length →
          (saveState ops e dest).1 = true
          ∧ (saveState ops e dest).2.length = dest.length
          ∧ (saveState ops e dest).2.take bytes.length = bytes
          ∧ (saveState ops e dest).2.drop bytes.length = dest.drop bytes.length))
    ∧ (dest.length < getStateSize ops e → saveState ops e dest = (false, dest))
    ∧ ((ops.stateSave e).isSome → dest.length = getStateSize ops e →
        (saveState ops e dest).1 = true) := by
  refine ⟨?_, ?_, ?_⟩
  · intro bytes hb
    constructor
    · intro hgt
      simp only [saveState, hb]
      rw [if_pos hgt]
    · intro hle
      have hss : saveState ops e dest = (true, bytes ++ dest.drop bytes.length) := by
        simp only [saveState, hb]
        rw [if_neg (by omega : ¬ bytes.length > dest.length)]
      refine ⟨by rw [hss], ?_, ?_, ?_⟩
      · rw [hss]
        simp only [List.length_append, List.length_drop]
        omega
      · rw [hss]
        simp
      · rw [hss]
        simp
  · intro hlt
    cases hb : ops.stateSave e with
    | none =>
      simp only [saveState, hb]
    | some bytes =>
      simp only [getStateSize, hb] at hlt
      simp only [saveState, hb]
      rw [if_pos (by omega : bytes.length > dest.length)]
  · intro hsome hcap
    cases hb : ops.stateSave e with
    | none =>
      rw [hb] at hsome
      cases hsome
    | some bytes =>
      simp only [getStateSize, hb] at hcap
      simp only [saveState, hb]
      rw [if_neg (by omega : ¬ bytes.length > dest.length)]

theorem saveState_capacity_spec_witness :
    saveState toyOps 5 [] = (false, []) ∧
    (saveState toyOps 5 [0]).1 = true ∧
    (saveState toyOps 5 [0]).2.take 1 = [5] :=
  ⟨(saveState_capacity_spec Nat toyOps 5 []).2.1 (by decide),
   (saveState_capacity_spec Nat toyOps 5 ([0])).2.2 (by decide) (by decide),
   (((saveState_capacity_spec Nat toyOps 5 ([0])).1 ([5]) rfl).2 (by decide)).2.2.1⟩

/-- Claim C10: when loadState succeeds the 128-byte RAM mirror is
refreshed from the restored engine's RAM before returning, so the
host-visible mirror matches the restored state without running a frame;
when loadState fails the mirror is left unchanged. -/
theorem loadState_mirror_spec (σ : Type) (ops : EngineOps σ) (st : DriverState σ)
    (data : List Nat) :
    ((loadState ops st data).1 = true →
      (loadState ops st data).2.system_ram
        = (ops.getRAM ((loadState ops st data).2.engine)).take 128
      ∧ (loadState ops st data).2.engine = (ops.stateLoad data st.engine).2)
    ∧ ((loadState ops st data).1 = false →
      (loadState ops st data).2.system_ram = st.system_ram
      ∧ (loadState ops st data).2.video_ready = st.video_ready
      ∧ (loadState ops st data).2.audio_buffer = st.audio_buffer) := by
  unfold loadState
  by_cases hok : (ops.stateLoad data st.engine).1 = true
  · rw [if_pos hok]
    constructor
    · intro _
      exact ⟨rfl, rfl⟩
    · intro hfalse
      cases hfalse
  · rw [if_neg hok]
    constructor
    · intro htrue
      cases htrue
    · intro _
      exact ⟨rfl, rfl, rfl⟩

theorem loadState_mirror_spec_witness :
    (loadState toyOps toyState [7]).2.system_ram
      = (toyOps.getRAM ((loadState toyOps toyState [7]).2.engine)).take 128 :=
  ((loadState_mirror_spec Nat toyOps toyState ([7])).1 (by decide)).1

lemma runFrame_ignores (ops : EngineOps σ) (fuel : Nat) (e : σ) (r : List Nat)
    (v v' : Bool) (a a' : List Int) (n n' : Nat) :
    runFrame ops fuel ⟨e, r, v, a, n⟩ = runFrame ops fuel ⟨e, r, v', a', n'⟩ := rfl

lemma runTrace_engine_eq (ops : EngineOps σ) (fuel : Nat) :
    ∀ (inputs : List (List Nat)) (st su : DriverState σ), st.engine = su.engine →
      runTrace ops fuel st inputs = runTrace ops fuel su inputs := by
  intro inputs
  cases inputs with
  | nil => intro st su _; rfl
  | cons i is =>
    intro st su h
    have hstep : stepHosted ops fuel st i = stepHosted ops fuel su i := by
      obtain ⟨e1, r1, v1, a1, n1⟩ := st
      obtain ⟨e2, r2, v2, a2, n2⟩ := su
      cases h
      exact runFrame_ignores ops fuel e1 i v1 v2 a1 a2 n1 n2
    rw [runTrace, runTrace, hstep]

/-- Claim C2: at the driver level, saving a session's engine state into
an exactly sized buffer and loading those bytes into any session succeeds
and yields a session whose future host-visible outputs (video-ready
flag, audio buffer and count, RAM mirror) agree with the original
session's on every subsequent sequence of host RAM-mirror inputs — given
that the external StateManager codec restores, from the saved bytes, the
engine state it serialized. -/
theorem saveLoad_roundtrip_spec (σ : Type) (ops : EngineOps σ) (fuel : Nat)
    (bytes dest : List Nat) (st1 st0 : DriverState σ)
    (hsave : ops.stateSave st1.engine = some bytes)
    (hload : ∀ t : σ, ops.stateLoad bytes t = (true, st1.engine))
    (hcap : dest.length = getStateSize ops st1.engine) :
    (saveState ops st1.engine dest).1 = true
    ∧ (loadState ops st0 (saveState ops st1.engine dest).2).1 = true
    ∧ ∀ inputs : List (List Nat),
        runTrace ops fuel ((loadState ops st0 (saveState ops st1.engine dest).2).2) inputs
          = runTrace ops fuel st1 inputs := by
  have hlen : dest.length = bytes.length := by
    rw [hcap]
    simp only [getStateSize, hsave]
  have hss : saveState ops st1.engine dest = (true, bytes) := by
    simp only [saveState, hsave]
    rw [if_neg (by omega : ¬ bytes.length > dest.length)]
    rw [show dest.drop bytes.length = [] from by rw [← hlen]; exact List.drop_length dest]
    simp
  have hls : loadState ops st0 bytes
      = (true, ⟨st1.engine, (ops.getRAM st1.engine).take 128,
          st0.video_ready, st0.audio_buffer, st0.audio_samples⟩) := by
    simp [loadState, hload st0.engine]
  refine ⟨by rw [hss], ?_, ?_⟩
  · rw [hss]
    rw [show ((true, bytes) : Bool × List Nat).2 = bytes from rfl, hls]
  · intro inputs
    rw [hss]
    rw [show ((true, bytes) : Bool × List Nat).2 = bytes from rfl, hls]
    exact runTrace_engine_eq ops fuel inputs _ st1 rfl

theorem saveLoad_roundtrip_spec_witness :
    (saveState toyOps toyState.engine [0]).1 = true
    ∧ (loadState toyOps toyState2 (saveState toyOps toyState.engine [0]).2).1 = true
    ∧ runTrace toyOps 4 ((loadState toyOps toyState2
          (saveState toyOps toyState.engine [0]).2).2) ([[1], [2]])
        = runTrace toyOps 4 toyState ([[1], [2]]) :=
  ⟨(saveLoad_roundtrip_spec Nat toyOps 4 ([5]) ([0]) toyState toyState2 rfl
      (fun t => rfl) (by decide)).1,
   (saveLoad_roundtrip_spec Nat toyOps 4 ([5]) ([0]) toyState toyState2 rfl
      (fun t => rfl) (by decide)).2.1,
   (saveLoad_roundtrip_spec Nat toyOps 4 ([5]) ([0]) toyState toyState2 rfl
      (fun t => rfl) (by decide)).2.2 ([[1], [2]])⟩

end Stella
